import Mathlib

/-!
Shallow embedding of the `AnalyticsManager` class of the appinsight demo
repository (client-side analytics file).  DOM reads become explicit string
arguments, `Date.now()` becomes an explicit `Nat` argument, `Math.random()`
draws become explicit arguments, `localStorage` becomes an explicit `Store`
record threaded through the operations, and every call into the telemetry
sink (`appInsights.trackEvent` / `trackPageView` / `trackMetric` /
`trackException`) becomes an `Event` value in the result's event list
(the list of events the code hands to the sink when the sink is present).
JavaScript numbers are modelled as `ℚ`, with `Option ℚ` where `NaN` can
occur (`none` = `NaN`).
-/

/-- Decimal rendering of one digit, as JavaScript renders digits of a
number (`Nat.digitChar` agrees with it on `0..9`). -/
def decDigitChar (d : Nat) : Char := Nat.digitChar d

/-- Fuel-based accumulator for the decimal rendering of a natural number.
Structural recursion on the fuel so that closed terms reduce by `rfl`;
`fuel ≥ n` makes it total on the argument. -/
def decDigitsAux : Nat → Nat → List Char
  | 0, _ => []
  | fuel + 1, n =>
    if n = 0 then []
    else decDigitsAux fuel (n / 10) ++ [decDigitChar (n % 10)]

/-- Decimal rendering of a natural number: the string JavaScript produces
when a nonnegative integer (such as `Date.now()`) is converted to a
string. -/
def natToDec (n : Nat) : String :=
  if n = 0 then "0" else ⟨decDigitsAux n n⟩

/-- Numeric value of a list of decimal digit characters, most significant
first (the inverse reading of `decDigitsAux`). -/
def digitCharsVal (ds : List Char) : Nat :=
  ds.foldl (fun a c => 10 * a + (c.toNat - 48)) 0

/-- JavaScript `String.prototype.padStart(2, "0")`. -/
def padStart2 (s : String) : String :=
  if 2 ≤ s.length then s
  else if s.length = 1 then "0" ++ s
  else "00"

/-- Model of JavaScript `parseFloat` restricted to the plain decimal
fragment (optional sign, digits, optional fraction); `none` stands for
`NaN`.  Exponent forms and `Infinity` are outside the modelled fragment. -/
def parseFloatQ (s : String) : Option ℚ :=
  let cs := (s.toList).dropWhile Char.isWhitespace
  let signed :=
    match cs with
    | '-' :: rest => (true, rest)
    | '+' :: rest => (false, rest)
    | _ => (false, cs)
  let ip := signed.2.takeWhile Char.isDigit
  let rest := signed.2.dropWhile Char.isDigit
  let fp :=
    match rest with
    | '.' :: r => r.takeWhile Char.isDigit
    | _ => []
  if ip.isEmpty && fp.isEmpty then none
  else
    let v : ℚ := (digitCharsVal ip : ℚ) + (digitCharsVal fp : ℚ) / ((10 : ℚ) ^ fp.length)
    some (if signed.1 then -v else v)

/-- A JavaScript value appearing in a telemetry property bag. -/
inductive PVal
  | str (s : String)
  | num (q : ℚ)
  | bool (b : Bool)
  | null
deriving DecidableEq, Repr

/-- Rendering of an `Option String` field (such as `this.currentQuoteId`)
into a property value: JavaScript `null` stays `null`. -/
def optStr : Option String → PVal
  | none => PVal.null
  | some s => PVal.str s

/-- One call into the telemetry sink.  `kind` distinguishes
`trackEvent`, `trackPageView`, `trackMetric`, `trackException` and
`trackPageViewPerformance`; measurements use `none` for `NaN`. -/
structure Event where
  kind : String
  name : String
  properties : List (String × PVal)
  measurements : List (String × Option ℚ)
deriving DecidableEq, Repr

/-- The `localStorage` keys the analytics code uses.  The code stores
`last_visit` as the decimal string of `Date.now()` and re-reads it with
`parseInt`, and stores `cohort_join_date` as an ISO timestamp string and
re-reads it with `new Date(...).getTime()`; both round-trip exactly, so
the stored strings are represented by their millisecond values. -/
structure Store where
  app_insights_user_id : Option String
  visitor_type : Option String
  last_visit : Option Nat
  user_cohort : Option String
  cohort_join_date : Option Nat
deriving DecidableEq, Repr

/-- `localStorage` with no key set. -/
def emptyStore : Store :=
  { app_insights_user_id := none, visitor_type := none, last_visit := none
    user_cohort := none, cohort_join_date := none }

/-- The real-time metric counters of the `AnalyticsManager` constructor. -/
structure Metrics where
  pageViews : Nat
  quoteRequests : Nat
  applicationsStarted : Nat
  applicationsCompleted : Nat
  policiesSold : Nat
deriving DecidableEq, Repr

/-- The mutable state of one `AnalyticsManager` instance, together with
the browser-persistent `Store` it reads and writes. -/
structure AMState where
  sessionId : String
  sessionStartTime : Nat
  pageViewCount : Nat
  currentQuoteId : Option String
  currentApplicationId : Option String
  metrics : Metrics
  store : Store
deriving DecidableEq, Repr

/-- The state of a fresh session, as the constructor leaves it: counters
zero, no quote, no application. -/
def initState (sessionId : String) (startTime : Nat) (store : Store) : AMState :=
  { sessionId := sessionId, sessionStartTime := startTime, pageViewCount := 0
    currentQuoteId := none, currentApplicationId := none
    metrics := ⟨0, 0, 0, 0, 0⟩, store := store }

/-- Result of one operation: the new state, the sink calls made, whether
the operation took its success path, and the `showStatus` message and
style it displayed. -/
structure StepResult where
  state : AMState
  events : List Event
  ok : Bool
  statusMsg : String
  statusType : String
deriving DecidableEq, Repr

/-- The failing branches: `showStatus(msg, "error")` and an early
`return`, leaving the state untouched and emitting nothing. -/
def failRes (st : AMState) (msg : String) : StepResult :=
  { state := st, events := [], ok := false, statusMsg := msg, statusType := "error" }

/-- JavaScript truthiness of a string-or-null value: `null` and `""` are
falsy. -/
def jsFalsy : Option String → Bool
  | none => true
  | some s => s = ""

/-- JavaScript truthiness of the numeric-string store fields (`none` is
the absent key, the stored strings are never empty). -/
def jsFalsyNum : Option Nat → Bool
  | none => true
  | some _ => false

namespace AnalyticsManager

/-- `generateSessionId`: `"session_" + Date.now() + "_" + random`. -/
def generateSessionId (now : Nat) (rand : String) : String :=
  "session_" ++ natToDec now ++ "_" ++ rand

/-- `getOrCreateUserId`: read `app_insights_user_id` from storage; when
absent (or falsy), generate `"user_" + Date.now() + "_" + random`, store
it, return it. -/
def getOrCreateUserId (store : Store) (now : Nat) (rand : String) : String × Store :=
  match store.app_insights_user_id with
  | some id =>
    if id = "" then
      let fresh := "user_" ++ natToDec now ++ "_" ++ rand
      (fresh, { store with app_insights_user_id := some fresh })
    else (id, store)
  | none =>
    let fresh := "user_" ++ natToDec now ++ "_" ++ rand
    (fresh, { store with app_insights_user_id := some fresh })

/-- `trackPageView(pageName)`: bump both page-view counters and emit a
page view carrying session context and timing. -/
def trackPageView (st : AMState) (pageName : String) (now : Nat) : StepResult :=
  let newCount := st.pageViewCount + 1
  let st1 := { st with pageViewCount := newCount
                       metrics := { st.metrics with pageViews := st.metrics.pageViews + 1 } }
  { state := st1
    events := [{ kind := "trackPageView", name := pageName
                 properties := [("sessionId", PVal.str st.sessionId),
                                ("pageNumber", PVal.num (newCount : ℚ)),
                                ("isFirstView", PVal.bool (newCount = 1))]
                 measurements := [("timeOnPage", some ((now : ℚ) - (st.sessionStartTime : ℚ)))] }]
    ok := true
    statusMsg := "Page view tracked: " ++ pageName
    statusType := "success" }

/-- `simulateNewVisitor`: remove the stored user id, set
`visitor_type = "new"`, emit `NewVisitorAcquisition`. -/
def simulateNewVisitor (st : AMState) : StepResult :=
  let st1 := { st with store := { st.store with app_insights_user_id := none,
                                                visitor_type := some "new" } }
  { state := st1
    events := [{ kind := "trackEvent", name := "NewVisitorAcquisition"
                 properties := [("visitorType", PVal.str "new"),
                                ("trafficSource", PVal.str "organic"),
                                ("sessionId", PVal.str st.sessionId)]
                 measurements := [] }]
    ok := true
    statusMsg := "New visitor simulation tracked"
    statusType := "success" }

/-- `simulateReturningVisitor`: set `visitor_type = "returning"`, compute
the whole-day floor since the last recorded visit (0 when none), emit
`ReturningVisitorEngagement`, update `last_visit`. -/
def simulateReturningVisitor (st : AMState) (now : Nat) : StepResult :=
  let days : Int :=
    match st.store.last_visit with
    | some t => Int.fdiv ((now : Int) - (t : Int)) 86400000
    | none => 0
  let st1 := { st with store := { st.store with visitor_type := some "returning",
                                                last_visit := some now } }
  { state := st1
    events := [{ kind := "trackEvent", name := "ReturningVisitorEngagement"
                 properties := [("visitorType", PVal.str "returning"),
                                ("sessionId", PVal.str st.sessionId)]
                 measurements := [("daysSinceLastVisit", some (days : ℚ))] }]
    ok := true
    statusMsg := "Returning visitor tracked"
    statusType := "success" }

/-- `simulateBounce`: emit `BounceEvent` with the elapsed time and the
page-view count; no state change. -/
def simulateBounce (st : AMState) (now : Nat) : StepResult :=
  { state := st
    events := [{ kind := "trackEvent", name := "BounceEvent"
                 properties := [("exitReason", PVal.str "immediate_exit"),
                                ("sessionId", PVal.str st.sessionId)]
                 measurements := [("timeOnPageMs", some ((now : ℚ) - (st.sessionStartTime : ℚ))),
                                  ("pageViewsInSession", some (st.pageViewCount : ℚ))] }]
    ok := true
    statusMsg := "Bounce event tracked (user left immediately)"
    statusType := "error" }

/-- `trackTimeOnPage`: emit a `TimeOnPage` metric; no state change. -/
def trackTimeOnPage (st : AMState) (now : Nat) : StepResult :=
  { state := st
    events := [{ kind := "trackMetric", name := "TimeOnPage"
                 properties := [("sessionId", PVal.str st.sessionId),
                                ("pageName", PVal.str "Home")]
                 measurements := [("value", some ((now : ℚ) - (st.sessionStartTime : ℚ)))] }]
    ok := true
    statusMsg := "Time on page tracked"
    statusType := "success" }

/-- `submitQuoteRequest`: validate the three form fields against
JavaScript falsiness (`""`), then create a fresh `quote_<millis>` id,
bump `quoteRequests` and emit `QuoteRequested` carrying
`parseFloat(coverageAmount)` as a measurement. -/
def submitQuoteRequest (st : AMState)
    (customerName insuranceType coverageAmount : String) (now : Nat) : StepResult :=
  if customerName = "" || insuranceType = "" || coverageAmount = "" then
    failRes st "Please fill in all fields"
  else
    let quoteId := "quote_" ++ natToDec now
    let st1 := { st with currentQuoteId := some quoteId
                         metrics := { st.metrics with
                                      quoteRequests := st.metrics.quoteRequests + 1 } }
    { state := st1
      events := [{ kind := "trackEvent", name := "QuoteRequested"
                   properties := [("quoteId", PVal.str quoteId),
                                  ("insuranceType", PVal.str insuranceType),
                                  ("sessionId", PVal.str st.sessionId)]
                   measurements := [("coverageAmount", parseFloatQ coverageAmount)] }]
      ok := true
      statusMsg := "Quote request submitted: " ++ quoteId
      statusType := "success" }

/-- `startApplication`: requires a truthy `currentQuoteId`; creates
`app_<millis>`, bumps `applicationsStarted`, emits `ApplicationStarted`
and the `application_started` `FunnelStep`. -/
def startApplication (st : AMState) (now : Nat) : StepResult :=
  if jsFalsy st.currentQuoteId then
    failRes st "Please request a quote first"
  else
    let appId := "app_" ++ natToDec now
    let st1 := { st with currentApplicationId := some appId
                         metrics := { st.metrics with
                                      applicationsStarted := st.metrics.applicationsStarted + 1 } }
    { state := st1
      events := [{ kind := "trackEvent", name := "ApplicationStarted"
                   properties := [("applicationId", PVal.str appId),
                                  ("quoteId", optStr st.currentQuoteId),
                                  ("sessionId", PVal.str st.sessionId)]
                   measurements := [] },
                 { kind := "trackEvent", name := "FunnelStep"
                   properties := [("step", PVal.str "application_started"),
                                  ("funnelId", optStr st.currentQuoteId),
                                  ("sessionId", PVal.str st.sessionId)]
                   measurements := [] }]
      ok := true
      statusMsg := "Application started successfully"
      statusType := "success" }

/-- `completeApplication`: requires a truthy `currentApplicationId` and a
non-empty personal-info field; bumps `applicationsCompleted` and emits
`ApplicationCompleted` plus the `application_completed` `FunnelStep`.
It does not modify `currentQuoteId` or `currentApplicationId`. -/
def completeApplication (st : AMState) (personalInfo : String) (now : Nat) : StepResult :=
  if jsFalsy st.currentApplicationId then
    failRes st "Please start an application first"
  else if personalInfo = "" then
    failRes st "Please fill in personal information"
  else
    let st1 := { st with metrics := { st.metrics with
                                      applicationsCompleted := st.metrics.applicationsCompleted + 1 } }
    { state := st1
      events := [{ kind := "trackEvent", name := "ApplicationCompleted"
                   properties := [("applicationId", optStr st.currentApplicationId),
                                  ("quoteId", optStr st.currentQuoteId),
                                  ("sessionId", PVal.str st.sessionId)]
                   measurements := [("timeToCompleteMs",
                                     some ((now : ℚ) - (st.sessionStartTime : ℚ)))] },
                 { kind := "trackEvent", name := "FunnelStep"
                   properties := [("step", PVal.str "application_completed"),
                                  ("funnelId", optStr st.currentQuoteId),
                                  ("sessionId", PVal.str st.sessionId)]
                   measurements := [] }]
      ok := true
      statusMsg := "Application completed successfully"
      statusType := "success" }

/-- `purchasePolicy`: the guard only tests `currentApplicationId` (the
field `startApplication` sets); on the success path it creates
`policy_<millis>`, bumps `policiesSold`, emits `PolicyPurchased`,
`Conversion` (whose `conversionValue` is `parseFloat(field) || 0`) and
the `purchase_completed` `FunnelStep`, then runs `resetPurchaseJourney`,
clearing both journey ids. -/
def purchasePolicy (st : AMState) (coverageAmountField : String) (now : Nat) : StepResult :=
  if jsFalsy st.currentApplicationId then
    failRes st "Please complete an application first"
  else
    let policyId := "policy_" ++ natToDec now
    let conversionValue : ℚ :=
      match parseFloatQ coverageAmountField with
      | none => 0
      | some q => if q = 0 then 0 else q
    let st1 := { st with currentQuoteId := none, currentApplicationId := none
                         metrics := { st.metrics with
                                      policiesSold := st.metrics.policiesSold + 1 } }
    { state := st1
      events := [{ kind := "trackEvent", name := "PolicyPurchased"
                   properties := [("policyId", PVal.str policyId),
                                  ("applicationId", optStr st.currentApplicationId),
                                  ("quoteId", optStr st.currentQuoteId),
                                  ("sessionId", PVal.str st.sessionId)]
                   measurements := [("timeToConvertMs",
                                     some ((now : ℚ) - (st.sessionStartTime : ℚ)))] },
                 { kind := "trackEvent", name := "Conversion"
                   properties := [("conversionType", PVal.str "policy_purchase"),
                                  ("funnelId", optStr st.currentQuoteId),
                                  ("sessionId", PVal.str st.sessionId)]
                   measurements := [("conversionValue", some conversionValue)] },
                 { kind := "trackEvent", name := "FunnelStep"
                   properties := [("step", PVal.str "purchase_completed"),
                                  ("funnelId", optStr st.currentQuoteId),
                                  ("sessionId", PVal.str st.sessionId)]
                   measurements := [] }]
      ok := true
      statusMsg := "Policy purchased successfully: " ++ policyId
      statusType := "success" }

/-- `runABTest(variant)`: emit `ABTestParticipation` unconditionally,
look up the hardcoded conversion rate, compare the uniform draw against
it, and emit `ABTestConversion` exactly when the draw is below the rate.
No state change. -/
def runABTest (st : AMState) (variant : String) (sample : ℚ) : StepResult :=
  let participation : Event :=
    { kind := "trackEvent", name := "ABTestParticipation"
      properties := [("testName", PVal.str "homepage_cta_test"),
                     ("variant", PVal.str variant),
                     ("sessionId", PVal.str st.sessionId)]
      measurements := [] }
  let conversionRate : ℚ := if variant = "variant_a" then 15 / 100 else 22 / 100
  let converted := sample < conversionRate
  let conversion : Event :=
    { kind := "trackEvent", name := "ABTestConversion"
      properties := [("testName", PVal.str "homepage_cta_test"),
                     ("variant", PVal.str variant),
                     ("sessionId", PVal.str st.sessionId)]
      measurements := [] }
  { state := st
    events := participation :: (if converted then [conversion] else [])
    ok := true
    statusMsg := if converted then "Converted!" else "No conversion"
    statusType := if converted then "success" else "status" }

/-- `measurePageLoad`: emit the simulated load-time metric and the
page-view-performance record; no state change. -/
def measurePageLoad (st : AMState) (loadTime : ℚ) : StepResult :=
  { state := st
    events := [{ kind := "trackMetric", name := "PageLoadTime"
                 properties := [("pageName", PVal.str "Home"),
                                ("sessionId", PVal.str st.sessionId)]
                 measurements := [("value", some loadTime)] },
               { kind := "trackPageViewPerformance", name := "HomePage"
                 properties := []
                 measurements := [("duration", some loadTime)] }]
    ok := true
    statusMsg := "Page load time measured"
    statusType := "success" }

/-- `simulateError`: emit one exception record; no state change. -/
def simulateError (st : AMState) : StepResult :=
  { state := st
    events := [{ kind := "trackException", name := "simulated_client_error"
                 properties := [("errorType", PVal.str "simulated_client_error"),
                                ("sessionId", PVal.str st.sessionId),
                                ("isSimulated", PVal.bool true)]
                 measurements := [] }]
    ok := true
    statusMsg := "Error simulation tracked in Application Insights"
    statusType := "error" }

/-- `trackDeviceInfo`: emit the device-information event; the browser
readings arrive as inputs; no state change. -/
def trackDeviceInfo (st : AMState) (userAgent platform : String) : StepResult :=
  { state := st
    events := [{ kind := "trackEvent", name := "DeviceInfo"
                 properties := [("userAgent", PVal.str userAgent),
                                ("platform", PVal.str platform),
                                ("sessionId", PVal.str st.sessionId)]
                 measurements := [] }]
    ok := true
    statusMsg := "Device info tracked"
    statusType := "success" }

/-- `trackCustomSegment`: pick one of the four segment labels from the
random draw and emit `UserSegmentation`; no state change. -/
def trackCustomSegment (st : AMState) (randIndex : Nat) : StepResult :=
  let segments := ["high_value", "mobile_user", "enterprise", "small_business"]
  let segment := segments.getD (randIndex % 4) "high_value"
  { state := st
    events := [{ kind := "trackEvent", name := "UserSegmentation"
                 properties := [("segment", PVal.str segment),
                                ("sessionId", PVal.str st.sessionId),
                                ("assignmentReason", PVal.str "behavioral_analysis")]
                 measurements := [] }]
    ok := true
    statusMsg := "User assigned to segment: " ++ segment
    statusType := "success" }

/-- `getCohortId`: `cohort_<year>_<zero-padded month>` from the current
date; `month0` is the 0-based `getMonth()` value. -/
def getCohortId (year month0 : Nat) : String :=
  "cohort_" ++ natToDec year ++ "_" ++ padStart2 (natToDec (month0 + 1))

/-- `joinCohort`: compute the cohort id from the current date, persist
the membership, emit `CohortJoin`. -/
def joinCohort (st : AMState) (year month0 now : Nat) : StepResult :=
  let cohortId := getCohortId year month0
  let st1 := { st with store := { st.store with user_cohort := some cohortId,
                                                cohort_join_date := some now } }
  { state := st1
    events := [{ kind := "trackEvent", name := "CohortJoin"
                 properties := [("cohortId", PVal.str cohortId),
                                ("joinDate", PVal.num (now : ℚ)),
                                ("sessionId", PVal.str st.sessionId)]
                 measurements := [] }]
    ok := true
    statusMsg := "Joined cohort: " ++ cohortId
    statusType := "success" }

/-- `trackRetention`: requires a stored cohort membership (both keys);
computes `daysSinceJoin` as the whole-day floor and emits
`CohortRetention`; no state change on either path. -/
def trackRetention (st : AMState) (now : Nat) : StepResult :=
  if jsFalsy st.store.user_cohort || jsFalsyNum st.store.cohort_join_date then
    failRes st "Please join a cohort first"
  else
    let joinMillis := st.store.cohort_join_date.getD 0
    let days : Int := Int.fdiv ((now : Int) - (joinMillis : Int)) 86400000
    { state := st
      events := [{ kind := "trackEvent", name := "CohortRetention"
                   properties := [("cohortId", optStr st.store.user_cohort),
                                  ("sessionId", PVal.str st.sessionId),
                                  ("retentionEvent", PVal.str "active_engagement")]
                   measurements := [("daysSinceJoin", some (days : ℚ))] }]
      ok := true
      statusMsg := "Retention event tracked"
      statusType := "success" }

/-- `viewCohortData`: requires a stored cohort id; the displayed
aggregate numbers are bounded random draws taken as inputs; no state
change on either path. -/
def viewCohortData (st : AMState)
    (totalMembers activeMembers : Nat) (retentionRate : ℚ) (avgSessionDuration : Nat) :
    StepResult :=
  if jsFalsy st.store.user_cohort then
    failRes st "No cohort data available. Please join a cohort first."
  else
    { state := st
      events := [{ kind := "trackEvent", name := "CohortAnalysisView"
                   properties := [("cohortId", optStr st.store.user_cohort),
                                  ("sessionId", PVal.str st.sessionId)]
                   measurements := [("totalMembers", some (totalMembers : ℚ)),
                                    ("activeMembers", some (activeMembers : ℚ)),
                                    ("retentionRate", some retentionRate),
                                    ("avgSessionDuration", some (avgSessionDuration : ℚ))] }]
      ok := true
      statusMsg := "Cohort analytics data displayed"
      statusType := "success" }

end AnalyticsManager

/-- One UI-triggered call to the analytics manager, with the form-field,
clock and random inputs the corresponding method reads. -/
inductive Op
  | submitQuoteRequest (customerName insuranceType coverageAmount : String) (now : Nat)
  | startApplication (now : Nat)
  | completeApplication (personalInfo : String) (now : Nat)
  | purchasePolicy (coverageAmountField : String) (now : Nat)
  | trackPageView (pageName : String) (now : Nat)
  | simulateBounce (now : Nat)
  | simulateNewVisitor
  | simulateReturningVisitor (now : Nat)
  | trackTimeOnPage (now : Nat)
  | runABTest (variant : String) (sample : ℚ)
  | measurePageLoad (loadTime : ℚ)
  | simulateError
  | trackDeviceInfo (userAgent platform : String)
  | trackCustomSegment (randIndex : Nat)
  | joinCohort (year month0 now : Nat)
  | trackRetention (now : Nat)
  | viewCohortData (totalMembers activeMembers : Nat) (retentionRate : ℚ)
      (avgSessionDuration : Nat)
deriving DecidableEq, Repr

/-- Dispatch one call to the method it names. -/
def step (st : AMState) : Op → StepResult
  | Op.submitQuoteRequest cn it ca now => AnalyticsManager.submitQuoteRequest st cn it ca now
  | Op.startApplication now => AnalyticsManager.startApplication st now
  | Op.completeApplication p now => AnalyticsManager.completeApplication st p now
  | Op.purchasePolicy ca now => AnalyticsManager.purchasePolicy st ca now
  | Op.trackPageView pn now => AnalyticsManager.trackPageView st pn now
  | Op.simulateBounce now => AnalyticsManager.simulateBounce st now
  | Op.simulateNewVisitor => AnalyticsManager.simulateNewVisitor st
  | Op.simulateReturningVisitor now => AnalyticsManager.simulateReturningVisitor st now
  | Op.trackTimeOnPage now => AnalyticsManager.trackTimeOnPage st now
  | Op.runABTest v q => AnalyticsManager.runABTest st v q
  | Op.measurePageLoad lt => AnalyticsManager.measurePageLoad st lt
  | Op.simulateError => AnalyticsManager.simulateError st
  | Op.trackDeviceInfo ua pl => AnalyticsManager.trackDeviceInfo st ua pl
  | Op.trackCustomSegment r => AnalyticsManager.trackCustomSegment st r
  | Op.joinCohort y m n => AnalyticsManager.joinCohort st y m n
  | Op.trackRetention now => AnalyticsManager.trackRetention st now
  | Op.viewCohortData tm am rr asd => AnalyticsManager.viewCohortData st tm am rr asd

/-- Run a sequence of calls, keeping only the evolving state. -/
def runSeq (st : AMState) : List Op → AMState
  | [] => st
  | op :: rest => runSeq (step st op).state rest

/-- Does this call name `submitQuoteRequest`? -/
def isSubmitOp : Op → Bool
  | Op.submitQuoteRequest .. => true
  | _ => false

/-- Does this call name `startApplication`? -/
def isStartOp : Op → Bool
  | Op.startApplication .. => true
  | _ => false

/-- Does this call name `completeApplication`? -/
def isCompleteOp : Op → Bool
  | Op.completeApplication .. => true
  | _ => false

/-- Does this call name `purchasePolicy`? -/
def isPurchaseOp : Op → Bool
  | Op.purchasePolicy .. => true
  | _ => false

/-- Number of calls in a trace that satisfy the kind test and take their
success path at the point where they execute. -/
def succCount (p : Op → Bool) : AMState → List Op → Nat
  | _, [] => 0
  | st, op :: rest =>
    let r := step st op
    (if p op && r.ok then 1 else 0) + succCount p r.state rest

/-- Is the trace free of successful `submitQuoteRequest` calls when run
from this state? -/
def noSubmitSuccess : AMState → List Op → Bool
  | _, [] => true
  | st, op :: rest =>
    let r := step st op
    !(isSubmitOp op && r.ok) && noSubmitSuccess r.state rest

/-! ### Arithmetic facts about the decimal rendering -/

/-- Each digit character decodes back to its digit. -/
lemma decDigitChar_decode : ∀ d < 10, (decDigitChar d).toNat - 48 = d := by decide

/-- Appending one digit multiplies the decoded value by ten. -/
lemma digitCharsVal_append_digit (l : List Char) (c : Char) :
    digitCharsVal (l ++ [c]) = 10 * digitCharsVal l + (c.toNat - 48) := by
  simp [digitCharsVal, List.foldl_append]

/-- With enough fuel, the rendered digits decode back to the number. -/
lemma decDigitsAux_val : ∀ fuel n, n ≤ fuel → digitCharsVal (decDigitsAux fuel n) = n := by
  intro fuel
  induction fuel with
  | zero =>
    intro n hn
    interval_cases n
    rfl
  | succ f ih =>
    intro n hn
    by_cases h0 : n = 0
    · subst h0; rfl
    · have hlt : n / 10 < n := Nat.div_lt_self (Nat.pos_of_ne_zero h0) (by norm_num)
      have hdiv : n / 10 ≤ f := by omega
      rw [decDigitsAux, if_neg h0, digitCharsVal_append_digit, ih _ hdiv,
        decDigitChar_decode _ (Nat.mod_lt _ (by norm_num))]
      omega

/-- The rendered digits of a number decode back to it. -/
lemma natToDec_val (n : Nat) : digitCharsVal (natToDec n).data = n := by
  unfold natToDec
  by_cases h : n = 0
  · subst h; rfl
  · rw [if_neg h]
    exact decDigitsAux_val n n le_rfl

/-- Decimal rendering is injective. -/
lemma natToDec_inj {m n : Nat} (h : natToDec m = natToDec n) : m = n := by
  have h2 := congrArg (fun s => digitCharsVal s.data) h
  simpa [natToDec_val] using h2

/-- With enough fuel, a number below `10 ^ k` renders in at most `k`
digits. -/
lemma decDigitsAux_length_le :
    ∀ fuel n k, n ≤ fuel → n < 10 ^ k → (decDigitsAux fuel n).length ≤ k := by
  intro fuel
  induction fuel with
  | zero =>
    intro n k hn _
    interval_cases n
    simp [decDigitsAux]
  | succ f ih =>
    intro n k hn hk
    by_cases h0 : n = 0
    · subst h0; simp [decDigitsAux]
    · cases k with
      | zero => simp at hk; omega
      | succ k =>
        have hlt : n / 10 < n := Nat.div_lt_self (Nat.pos_of_ne_zero h0) (by norm_num)
        have hdiv : n / 10 ≤ f := by omega
        have hklt : n / 10 < 10 ^ k := by
          rw [Nat.div_lt_iff_lt_mul (by norm_num)]
          calc n < 10 ^ (k + 1) := hk
            _ = 10 ^ k * 10 := by ring
        have hrec := ih (n / 10) k hdiv hklt
        rw [decDigitsAux, if_neg h0]
        simp only [List.length_append, List.length_singleton]
        omega

/-- With enough fuel, a number at least `10 ^ k` renders in more than
`k` digits. -/
lemma decDigitsAux_length_gt :
    ∀ fuel n k, n ≤ fuel → 10 ^ k ≤ n → k < (decDigitsAux fuel n).length := by
  intro fuel
  induction fuel with
  | zero =>
    intro n k hn hk
    have : 1 ≤ 10 ^ k := Nat.one_le_pow _ _ (by norm_num)
    omega
  | succ f ih =>
    intro n k hn hk
    have h1 : 1 ≤ 10 ^ k := Nat.one_le_pow _ _ (by norm_num)
    have h0 : n ≠ 0 := by omega
    have hlt : n / 10 < n := Nat.div_lt_self (Nat.pos_of_ne_zero h0) (by norm_num)
    have hdiv : n / 10 ≤ f := by omega
    rw [decDigitsAux, if_neg h0]
    simp only [List.length_append, List.length_singleton]
    cases k with
    | zero => omega
    | succ k =>
      have hge : 10 ^ k ≤ n / 10 := by
        rw [Nat.le_div_iff_mul_le (by norm_num)]
        calc 10 ^ k * 10 = 10 ^ (k + 1) := by ring
          _ ≤ n := hk
      have hrec := ih (n / 10) k hdiv hge
      omega

/-- A number in `[10 ^ k, 10 ^ (k+1))` renders in exactly `k + 1`
digits. -/
lemma natToDec_length {n k : Nat} (h1 : 10 ^ k ≤ n) (h2 : n < 10 ^ (k + 1)) :
    (natToDec n).length = k + 1 := by
  have hk1 : 1 ≤ 10 ^ k := Nat.one_le_pow _ _ (by norm_num)
  have h0 : n ≠ 0 := by omega
  have hle := decDigitsAux_length_le n n (k + 1) le_rfl h2
  have hgt := decDigitsAux_length_gt n n k le_rfl h1
  unfold natToDec
  rw [if_neg h0]
  simp only [String.length]
  omega

/-- Inside a generated user id, equal-length random suffixes force the
timestamp components to agree. -/
lemma userId_inj_time {t1 t2 : Nat} {r1 r2 : String} (hl : r1.length = r2.length)
    (h : "user_" ++ natToDec t1 ++ "_" ++ r1 = "user_" ++ natToDec t2 ++ "_" ++ r2) :
    t1 = t2 := by
  apply natToDec_inj
  have hdata := congrArg String.data h
  simp only [String.data_append, List.append_assoc] at hdata
  have hdata2 := List.append_cancel_left hdata
  have hlen : r1.data.length = r2.data.length := hl
  have hlens := congrArg List.length hdata2
  simp only [List.length_append] at hlens
  have hdl : (natToDec t1).data.length = (natToDec t2).data.length := by omega
  have := (List.append_inj hdata2 hdl).1
  exact String.ext this

/-! ### Per-call counter accounting -/

/-- `quoteRequests` moves exactly by one on a successful
`submitQuoteRequest` and is untouched otherwise. -/
lemma step_quoteRequests (s : AMState) (op : Op) :
    (step s op).state.metrics.quoteRequests
      = s.metrics.quoteRequests + (if isSubmitOp op && (step s op).ok then 1 else 0) := by
  cases op <;>
    simp only [step, isSubmitOp, AnalyticsManager.submitQuoteRequest,
      AnalyticsManager.startApplication, AnalyticsManager.completeApplication,
      AnalyticsManager.purchasePolicy, AnalyticsManager.trackPageView,
      AnalyticsManager.simulateBounce, AnalyticsManager.simulateNewVisitor,
      AnalyticsManager.simulateReturningVisitor, AnalyticsManager.trackTimeOnPage,
      AnalyticsManager.runABTest, AnalyticsManager.measurePageLoad,
      AnalyticsManager.simulateError, AnalyticsManager.trackDeviceInfo,
      AnalyticsManager.trackCustomSegment, AnalyticsManager.joinCohort,
      AnalyticsManager.trackRetention, AnalyticsManager.viewCohortData, failRes] <;>
    (try split_ifs) <;> simp_all

/-- `applicationsStarted` moves exactly by one on a successful
`startApplication` and is untouched otherwise. -/
lemma step_applicationsStarted (s : AMState) (op : Op) :
    (step s op).state.metrics.applicationsStarted
      = s.metrics.applicationsStarted + (if isStartOp op && (step s op).ok then 1 else 0) := by
  cases op <;>
    simp only [step, isStartOp, AnalyticsManager.submitQuoteRequest,
      AnalyticsManager.startApplication, AnalyticsManager.completeApplication,
      AnalyticsManager.purchasePolicy, AnalyticsManager.trackPageView,
      AnalyticsManager.simulateBounce, AnalyticsManager.simulateNewVisitor,
      AnalyticsManager.simulateReturningVisitor, AnalyticsManager.trackTimeOnPage,
      AnalyticsManager.runABTest, AnalyticsManager.measurePageLoad,
      AnalyticsManager.simulateError, AnalyticsManager.trackDeviceInfo,
      AnalyticsManager.trackCustomSegment, AnalyticsManager.joinCohort,
      AnalyticsManager.trackRetention, AnalyticsManager.viewCohortData, failRes] <;>
    (try split_ifs) <;> simp_all

/-- `applicationsCompleted` moves exactly by one on a successful
`completeApplication` and is untouched otherwise. -/
lemma step_applicationsCompleted (s : AMState) (op : Op) :
    (step s op).state.metrics.applicationsCompleted
      = s.metrics.applicationsCompleted + (if isCompleteOp op && (step s op).ok then 1 else 0) := by
  cases op <;>
    simp only [step, isCompleteOp, AnalyticsManager.submitQuoteRequest,
      AnalyticsManager.startApplication, AnalyticsManager.completeApplication,
      AnalyticsManager.purchasePolicy, AnalyticsManager.trackPageView,
      AnalyticsManager.simulateBounce, AnalyticsManager.simulateNewVisitor,
      AnalyticsManager.simulateReturningVisitor, AnalyticsManager.trackTimeOnPage,
      AnalyticsManager.runABTest, AnalyticsManager.measurePageLoad,
      AnalyticsManager.simulateError, AnalyticsManager.trackDeviceInfo,
      AnalyticsManager.trackCustomSegment, AnalyticsManager.joinCohort,
      AnalyticsManager.trackRetention, AnalyticsManager.viewCohortData, failRes] <;>
    (try split_ifs) <;> simp_all

/-- `policiesSold` moves exactly by one on a successful `purchasePolicy`
and is untouched otherwise. -/
lemma step_policiesSold (s : AMState) (op : Op) :
    (step s op).state.metrics.policiesSold
      = s.metrics.policiesSold + (if isPurchaseOp op && (step s op).ok then 1 else 0) := by
  cases op <;>
    simp only [step, isPurchaseOp, AnalyticsManager.submitQuoteRequest,
      AnalyticsManager.startApplication, AnalyticsManager.completeApplication,
      AnalyticsManager.purchasePolicy, AnalyticsManager.trackPageView,
      AnalyticsManager.simulateBounce, AnalyticsManager.simulateNewVisitor,
      AnalyticsManager.simulateReturningVisitor, AnalyticsManager.trackTimeOnPage,
      AnalyticsManager.runABTest, AnalyticsManager.measurePageLoad,
      AnalyticsManager.simulateError, AnalyticsManager.trackDeviceInfo,
      AnalyticsManager.trackCustomSegment, AnalyticsManager.joinCohort,
      AnalyticsManager.trackRetention, AnalyticsManager.viewCohortData, failRes] <;>
    (try split_ifs) <;> simp_all

/-- Any counter obeying the one-step accounting equation accumulates the
per-trace success count. -/
lemma runSeq_count (f : AMState → Nat) (p : Op → Bool)
    (hstep : ∀ s op, f (step s op).state = f s + (if p op && (step s op).ok then 1 else 0)) :
    ∀ ops s, f (runSeq s ops) = f s + succCount p s ops := by
  intro ops
  induction ops with
  | nil => intro s; simp [runSeq, succCount]
  | cons op rest ih =>
    intro s
    simp only [runSeq, succCount]
    rw [ih, hstep]
    ring

/-! ### Concrete demo session used by witnesses and counterexamples -/

/-- A fresh demo session over empty storage. -/
def demoInit : AMState := initState "sess" 0 emptyStore

/-- The two-call trace that submits a valid quote and starts an
application; `completeApplication` never appears in it. -/
def demoJourney : List Op :=
  [Op.submitQuoteRequest "Alice" "auto" "50000" 1, Op.startApplication 2]

/-- Demo state after the quote was submitted and the application
started. -/
def demoStarted : AMState := runSeq demoInit demoJourney

/-- C2: starting from a fresh session, each of the four funnel counters
equals the number of successful calls of its operation in the executed
trace; one step moves each counter by exactly the success indicator of
its own operation (so counters are monotone and a failed call increments
nothing). -/
theorem metrics_count_successful_calls (sid : String) (t0 : Nat) (store : Store)
    (ops : List Op) (s : AMState) (op : Op) :
    (runSeq (initState sid t0 store) ops).metrics.quoteRequests
        = succCount isSubmitOp (initState sid t0 store) ops ∧
    (runSeq (initState sid t0 store) ops).metrics.applicationsStarted
        = succCount isStartOp (initState sid t0 store) ops ∧
    (runSeq (initState sid t0 store) ops).metrics.applicationsCompleted
        = succCount isCompleteOp (initState sid t0 store) ops ∧
    (runSeq (initState sid t0 store) ops).metrics.policiesSold
        = succCount isPurchaseOp (initState sid t0 store) ops ∧
    (step s op).state.metrics.quoteRequests
        = s.metrics.quoteRequests + (if isSubmitOp op && (step s op).ok then 1 else 0) ∧
    (step s op).state.metrics.applicationsStarted
        = s.metrics.applicationsStarted + (if isStartOp op && (step s op).ok then 1 else 0) ∧
    (step s op).state.metrics.applicationsCompleted
        = s.metrics.applicationsCompleted + (if isCompleteOp op && (step s op).ok then 1 else 0) ∧
    (step s op).state.metrics.policiesSold
        = s.metrics.policiesSold + (if isPurchaseOp op && (step s op).ok then 1 else 0) ∧
    s.metrics.quoteRequests ≤ (step s op).state.metrics.quoteRequests ∧
    s.metrics.applicationsStarted ≤ (step s op).state.metrics.applicationsStarted ∧
    s.metrics.applicationsCompleted ≤ (step s op).state.metrics.applicationsCompleted ∧
    s.metrics.policiesSold ≤ (step s op).state.metrics.policiesSold := by
  refine ⟨?_, ?_, ?_, ?_, step_quoteRequests s op, step_applicationsStarted s op,
    step_applicationsCompleted s op, step_policiesSold s op, ?_, ?_, ?_, ?_⟩
  · simpa [initState] using
      runSeq_count (fun t => t.metrics.quoteRequests) isSubmitOp step_quoteRequests
        ops (initState sid t0 store)
  · simpa [initState] using
      runSeq_count (fun t => t.metrics.applicationsStarted) isStartOp step_applicationsStarted
        ops (initState sid t0 store)
  · simpa [initState] using
      runSeq_count (fun t => t.metrics.applicationsCompleted) isCompleteOp
        step_applicationsCompleted ops (initState sid t0 store)
  · simpa [initState] using
      runSeq_count (fun t => t.metrics.policiesSold) isPurchaseOp step_policiesSold
        ops (initState sid t0 store)
  · rw [step_quoteRequests s op]; omega
  · rw [step_applicationsStarted s op]; omega
  · rw [step_applicationsCompleted s op]; omega
  · rw [step_policiesSold s op]; omega

/-- C1 counterexample: in the demo trace `startApplication` has
succeeded once, `completeApplication` has succeeded zero times, and yet
`purchasePolicy` succeeds and sells a policy. -/
theorem purchasePolicy_succeeds_without_completion :
    succCount isStartOp demoInit demoJourney = 1 ∧
    succCount isCompleteOp demoInit demoJourney = 0 ∧
    (step demoStarted (Op.purchasePolicy "50000" 3)).ok = true ∧
    (step demoStarted (Op.purchasePolicy "50000" 3)).state.metrics.policiesSold = 1 := by
  decide

/-- C1 amended: `purchasePolicy` fails — error report, unchanged state,
no event — exactly when `currentApplicationId` is absent, i.e. when no
application has been started; completion of the application is not
required. -/
theorem purchasePolicy_fails_iff_no_application (st : AMState) (ca : String) (now : Nat) :
    ((AnalyticsManager.purchasePolicy st ca now).ok = false
        ↔ jsFalsy st.currentApplicationId = true) ∧
    (jsFalsy st.currentApplicationId = true →
      AnalyticsManager.purchasePolicy st ca now
        = failRes st "Please complete an application first") := by
  unfold AnalyticsManager.purchasePolicy
  split_ifs with h <;> simp_all [failRes]

/-- Witness for the amended C1 at a concrete input. -/
theorem purchasePolicy_fails_iff_no_application_w :
    AnalyticsManager.purchasePolicy demoInit "50000" 3
      = failRes demoInit "Please complete an application first" :=
  (purchasePolicy_fails_iff_no_application demoInit "50000" 3).2 (by decide)

/-- A step that is not a successful `submitQuoteRequest` keeps an absent
`currentQuoteId` absent. -/
lemma step_quoteId_none (s : AMState) (op : Op) (h : s.currentQuoteId = none)
    (hop : (isSubmitOp op && (step s op).ok) = false) :
    (step s op).state.currentQuoteId = none := by
  cases op <;>
    simp only [step, isSubmitOp, AnalyticsManager.submitQuoteRequest,
      AnalyticsManager.startApplication, AnalyticsManager.completeApplication,
      AnalyticsManager.purchasePolicy, AnalyticsManager.trackPageView,
      AnalyticsManager.simulateBounce, AnalyticsManager.simulateNewVisitor,
      AnalyticsManager.simulateReturningVisitor, AnalyticsManager.trackTimeOnPage,
      AnalyticsManager.runABTest, AnalyticsManager.measurePageLoad,
      AnalyticsManager.simulateError, AnalyticsManager.trackDeviceInfo,
      AnalyticsManager.trackCustomSegment, AnalyticsManager.joinCohort,
      AnalyticsManager.trackRetention, AnalyticsManager.viewCohortData, failRes]
      at hop ⊢ <;>
    (try split_ifs at hop ⊢) <;> simp_all

/-- While a trace contains no successful `submitQuoteRequest`, an absent
`currentQuoteId` stays absent. -/
lemma runSeq_quoteId_none (s : AMState) (ops : List Op) (h : s.currentQuoteId = none)
    (hns : noSubmitSuccess s ops = true) : (runSeq s ops).currentQuoteId = none := by
  induction ops generalizing s with
  | nil => simpa [runSeq] using h
  | cons op rest ih =>
    simp only [noSubmitSuccess, Bool.and_eq_true, Bool.not_eq_true'] at hns
    exact ih (step s op).state (step_quoteId_none s op h hns.1) hns.2

/-- C3: a successful `purchasePolicy` leaves both journey ids absent;
`startApplication` fails whenever `currentQuoteId` is absent; and the
absence persists along any continuation with no successful
`submitQuoteRequest`. -/
theorem purchase_clears_funnel_until_new_quote
    (st : AMState) (ca : String) (now : Nat) (s : AMState) (n : Nat) (ops : List Op) :
    ((AnalyticsManager.purchasePolicy st ca now).ok = true →
      (AnalyticsManager.purchasePolicy st ca now).state.currentQuoteId = none ∧
      (AnalyticsManager.purchasePolicy st ca now).state.currentApplicationId = none) ∧
    (jsFalsy s.currentQuoteId = true →
      AnalyticsManager.startApplication s n = failRes s "Please request a quote first") ∧
    (s.currentQuoteId = none → noSubmitSuccess s ops = true →
      (runSeq s ops).currentQuoteId = none) := by
  refine ⟨?_, ?_, fun h hns => runSeq_quoteId_none s ops h hns⟩
  · unfold AnalyticsManager.purchasePolicy
    split_ifs <;> simp [failRes]
  · intro h
    unfold AnalyticsManager.startApplication
    simp [h]

/-- Demo state right after the demo journey is closed by a successful
`purchasePolicy`. -/
def demoAfterPurchase : AMState :=
  (AnalyticsManager.purchasePolicy demoStarted "50000" 3).state

/-- Witness for C3 on the demo session: purchase clears both ids, the
next `startApplication` fails, and the quote id stays absent under a
continuation whose only `submitQuoteRequest` fails validation. -/
theorem purchase_clears_funnel_until_new_quote_w :
    (AnalyticsManager.purchasePolicy demoStarted "50000" 3).state.currentQuoteId = none ∧
    (AnalyticsManager.purchasePolicy demoStarted "50000" 3).state.currentApplicationId = none ∧
    AnalyticsManager.startApplication demoAfterPurchase 4
      = failRes demoAfterPurchase "Please request a quote first" ∧
    (runSeq demoAfterPurchase
        [Op.startApplication 5, Op.submitQuoteRequest "" "" "" 6,
         Op.trackPageView "Home" 7]).currentQuoteId = none :=
  ⟨((purchase_clears_funnel_until_new_quote demoStarted "50000" 3 demoAfterPurchase 4 []).1
      (by decide)).1,
   ((purchase_clears_funnel_until_new_quote demoStarted "50000" 3 demoAfterPurchase 4 []).1
      (by decide)).2,
   (purchase_clears_funnel_until_new_quote demoStarted "50000" 3 demoAfterPurchase 4 []).2.1
      (by decide),
   (purchase_clears_funnel_until_new_quote demoStarted "50000" 3 demoAfterPurchase 4
        [Op.startApplication 5, Op.submitQuoteRequest "" "" "" 6, Op.trackPageView "Home" 7]).2.2
      (by decide) (by decide)⟩

/-- C4 counterexample: a non-empty, non-numeric coverage amount passes
validation — the call succeeds, the counter moves, and the emitted
`QuoteRequested` event carries `NaN` (`none`) as `coverageAmount`. -/
theorem submitQuote_accepts_non_numeric :
    (AnalyticsManager.submitQuoteRequest demoInit "Alice" "auto" "not_a_number" 1).ok = true ∧
    (AnalyticsManager.submitQuoteRequest demoInit "Alice" "auto"
        "not_a_number" 1).state.metrics.quoteRequests = 1 ∧
    (AnalyticsManager.submitQuoteRequest demoInit "Alice" "auto" "not_a_number" 1).events
      = [{ kind := "trackEvent", name := "QuoteRequested",
           properties := [("quoteId", PVal.str "quote_1"), ("insuranceType", PVal.str "auto"),
                          ("sessionId", PVal.str "sess")],
           measurements := [("coverageAmount", none)] }] ∧
    parseFloatQ "not_a_number" = none := by
  decide

/-- C4 amended: `submitQuoteRequest` fails — as a no-op validation error
— exactly when one of the three fields is the empty string; on success
the emitted `QuoteRequested` event carries `parseFloat` of the coverage
field as its numeric measurement (which is `NaN` for non-numeric
input). -/
theorem submitQuote_validates_only_emptiness (st : AMState) (cn it ca : String) (now : Nat) :
    ((AnalyticsManager.submitQuoteRequest st cn it ca now).ok = false
        ↔ (cn = "" ∨ it = "" ∨ ca = "")) ∧
    ((cn = "" ∨ it = "" ∨ ca = "") →
      AnalyticsManager.submitQuoteRequest st cn it ca now
        = failRes st "Please fill in all fields") ∧
    (¬(cn = "" ∨ it = "" ∨ ca = "") →
      (AnalyticsManager.submitQuoteRequest st cn it ca now).events
        = [{ kind := "trackEvent", name := "QuoteRequested",
             properties := [("quoteId", PVal.str ("quote_" ++ natToDec now)),
                            ("insuranceType", PVal.str it),
                            ("sessionId", PVal.str st.sessionId)],
             measurements := [("coverageAmount", parseFloatQ ca)] }]) := by
  unfold AnalyticsManager.submitQuoteRequest
  split_ifs with h <;> (simp_all [failRes]; try tauto)

/-- Witness for the amended C4 at a concrete input. -/
theorem submitQuote_validates_only_emptiness_w :
    AnalyticsManager.submitQuoteRequest demoInit "" "auto" "50000" 1
      = failRes demoInit "Please fill in all fields" :=
  (submitQuote_validates_only_emptiness demoInit "" "auto" "50000" 1).2.1 (Or.inl rfl)

/-- C5: each failing guard of `startApplication`, `completeApplication`
and `trackRetention` returns the bare error result: unchanged state and
an empty event list. -/
theorem failing_funnel_ops_are_noops (st : AMState) (now : Nat) (personalInfo : String) :
    (jsFalsy st.currentQuoteId = true →
      AnalyticsManager.startApplication st now = failRes st "Please request a quote first") ∧
    (jsFalsy st.currentApplicationId = true →
      AnalyticsManager.completeApplication st personalInfo now
        = failRes st "Please start an application first") ∧
    (jsFalsy st.currentApplicationId = false → personalInfo = "" →
      AnalyticsManager.completeApplication st personalInfo now
        = failRes st "Please fill in personal information") ∧
    ((jsFalsy st.store.user_cohort || jsFalsyNum st.store.cohort_join_date) = true →
      AnalyticsManager.trackRetention st now = failRes st "Please join a cohort first") := by
  refine ⟨fun h => ?_, fun h => ?_, fun h1 h2 => ?_, fun h => ?_⟩
  · unfold AnalyticsManager.startApplication; simp [h]
  · unfold AnalyticsManager.completeApplication; simp [h]
  · unfold AnalyticsManager.completeApplication; simp [h1, h2]
  · unfold AnalyticsManager.trackRetention; simp [h]

/-- Witness for C5: the three operations fail as no-ops on concrete
states that violate their guards. -/
theorem failing_funnel_ops_are_noops_w :
    AnalyticsManager.startApplication demoInit 1
      = failRes demoInit "Please request a quote first" ∧
    AnalyticsManager.completeApplication demoInit "info" 1
      = failRes demoInit "Please start an application first" ∧
    AnalyticsManager.completeApplication demoStarted "" 4
      = failRes demoStarted "Please fill in personal information" ∧
    AnalyticsManager.trackRetention demoInit 1 = failRes demoInit "Please join a cohort first" :=
  ⟨(failing_funnel_ops_are_noops demoInit 1 "info").1 (by decide),
   (failing_funnel_ops_are_noops demoInit 1 "info").2.1 (by decide),
   (failing_funnel_ops_are_noops demoStarted 4 "").2.2.1 (by decide) rfl,
   (failing_funnel_ops_are_noops demoInit 1 "info").2.2.2 (by decide)⟩

/-- C6: `runABTest` leaves the state alone, always emits the
participation event first, uses rate `0.15` exactly for the label
`"variant_a"` and `0.22` for every other label, and emits the conversion
event exactly when the drawn sample is strictly below that rate. -/
theorem runABTest_table_and_conversion (st : AMState) (variant : String) (sample : ℚ) :
    (AnalyticsManager.runABTest st variant sample).state = st ∧
    (AnalyticsManager.runABTest st variant sample).ok = true ∧
    (AnalyticsManager.runABTest st variant sample).events
      = { kind := "trackEvent", name := "ABTestParticipation",
          properties := [("testName", PVal.str "homepage_cta_test"),
                         ("variant", PVal.str variant),
                         ("sessionId", PVal.str st.sessionId)],
          measurements := ([] : List (String × Option ℚ)) } ::
        (if sample < (if variant = "variant_a" then (15 : ℚ) / 100 else (22 : ℚ) / 100)
         then [{ kind := "trackEvent", name := "ABTestConversion",
                 properties := [("testName", PVal.str "homepage_cta_test"),
                                ("variant", PVal.str variant),
                                ("sessionId", PVal.str st.sessionId)],
                 measurements := ([] : List (String × Option ℚ)) }]
         else []) ∧
    ((AnalyticsManager.runABTest st variant sample).events.length = 2
      ↔ sample < (if variant = "variant_a" then (15 : ℚ) / 100 else (22 : ℚ) / 100)) := by
  by_cases hc : sample < (if variant = "variant_a" then (15 : ℚ) / 100 else (22 : ℚ) / 100) <;>
    simp [AnalyticsManager.runABTest, hc]

/-- C7: the cohort id is the literal `cohort_` followed by the four-digit
decimal year, an underscore and the two-digit zero-padded month, and at
March 2024 (`getMonth() = 2`) it is exactly `cohort_2024_03`. -/
theorem getCohortId_format (y m0 : Nat) (hy1 : 1000 ≤ y) (hy2 : y ≤ 9999) (hm : m0 ≤ 11) :
    AnalyticsManager.getCohortId y m0
        = "cohort_" ++ natToDec y ++ "_" ++ padStart2 (natToDec (m0 + 1)) ∧
    (natToDec y).length = 4 ∧
    (padStart2 (natToDec (m0 + 1))).length = 2 ∧
    AnalyticsManager.getCohortId 2024 2 = "cohort_2024_03" := by
  refine ⟨rfl, ?_, ?_, by decide⟩
  · have h3 : (10 : ℕ) ^ 3 ≤ y := by
      calc (10 : ℕ) ^ 3 = 1000 := by norm_num
        _ ≤ y := hy1
    have h4 : y < 10 ^ (3 + 1) := by
      calc y ≤ 9999 := hy2
        _ < 10 ^ (3 + 1) := by norm_num
    exact natToDec_length h3 h4
  · interval_cases m0 <;> decide

/-- Witness for C7 at the concrete March 2024 date. -/
theorem getCohortId_format_w :
    (natToDec 2024).length = 4 ∧ AnalyticsManager.getCohortId 2024 2 = "cohort_2024_03" :=
  ⟨(getCohortId_format 2024 2 (by decide) (by decide) (by decide)).2.1,
   (getCohortId_format 2024 2 (by decide) (by decide) (by decide)).2.2.2⟩

/-- A generated user id is never the empty string. -/
lemma userId_ne_empty (t : Nat) (r : String) : "user_" ++ natToDec t ++ "_" ++ r ≠ "" := by
  intro h
  have hlen := congrArg String.length h
  rw [String.length_append, String.length_append, String.length_append] at hlen
  have h5 : "user_".length = 5 := rfl
  have h1 : "_".length = 1 := rfl
  have h0 : String.length "" = 0 := rfl
  omega

/-- C8: `getOrCreateUserId` is idempotent over a fixed storage state and
never returns the empty string; after `simulateNewVisitor` removes the
stored id, the next call (at a different millisecond, with an
equal-length random suffix) returns a different identifier. -/
theorem userId_idempotent_and_reset_gives_fresh
    (store : Store) (t1 t2 : Nat) (r1 r2 : String) (s : AMState) :
    ((AnalyticsManager.getOrCreateUserId
        (AnalyticsManager.getOrCreateUserId store t1 r1).2 t2 r2).1
      = (AnalyticsManager.getOrCreateUserId store t1 r1).1) ∧
    (AnalyticsManager.getOrCreateUserId store t1 r1).1 ≠ "" ∧
    (store.app_insights_user_id = none → t1 ≠ t2 → r1.length = r2.length →
      s.store = (AnalyticsManager.getOrCreateUserId store t1 r1).2 →
      (AnalyticsManager.getOrCreateUserId
          (AnalyticsManager.simulateNewVisitor s).state.store t2 r2).1
        ≠ (AnalyticsManager.getOrCreateUserId store t1 r1).1) := by
  refine ⟨?_, ?_, ?_⟩
  · cases hs : store.app_insights_user_id with
    | none => simp [AnalyticsManager.getOrCreateUserId, hs, userId_ne_empty t1 r1]
    | some id =>
      by_cases hid : id = "" <;>
        simp [AnalyticsManager.getOrCreateUserId, hs, hid, userId_ne_empty t1 r1]
  · cases hs : store.app_insights_user_id with
    | none => simp [AnalyticsManager.getOrCreateUserId, hs, userId_ne_empty t1 r1]
    | some id =>
      by_cases hid : id = "" <;>
        simp [AnalyticsManager.getOrCreateUserId, hs, hid, userId_ne_empty t1 r1]
  · intro hfresh ht hr hsstore
    simp only [AnalyticsManager.getOrCreateUserId, AnalyticsManager.simulateNewVisitor,
      hfresh, hsstore]
    intro heq
    exact ht (userId_inj_time hr heq.symm)

/-- Storage after a first `getOrCreateUserId` call on empty storage. -/
def demoStore1 : Store := (AnalyticsManager.getOrCreateUserId emptyStore 1 "abcdefghi").2

/-- Witness for C8 on concrete storage, timestamps and random
suffixes. -/
theorem userId_idempotent_and_reset_gives_fresh_w :
    (AnalyticsManager.getOrCreateUserId demoStore1 2 "rrrrrrrrr").1
        = (AnalyticsManager.getOrCreateUserId emptyStore 1 "abcdefghi").1 ∧
    (AnalyticsManager.getOrCreateUserId emptyStore 1 "abcdefghi").1 ≠ "" ∧
    (AnalyticsManager.getOrCreateUserId
        (AnalyticsManager.simulateNewVisitor (initState "sess" 0 demoStore1)).state.store
        2 "rrrrrrrrr").1
      ≠ (AnalyticsManager.getOrCreateUserId emptyStore 1 "abcdefghi").1 := by
  have h := userId_idempotent_and_reset_gives_fresh emptyStore 1 2 "abcdefghi" "rrrrrrrrr"
      (initState "sess" 0 demoStore1)
  exact ⟨h.1, h.2.1, h.2.2 rfl (by decide) rfl rfl⟩

/-- `jsFalsy x = false` forces the option to be present. -/
lemma jsFalsy_false_isSome {x : Option String} (h : jsFalsy x = false) : x.isSome = true := by
  cases x <;> simp_all [jsFalsy]

/-- One step preserves "an application id is present only when a quote
id is present". -/
lemma step_app_implies_quote (s : AMState) (op : Op)
    (h : s.currentApplicationId.isSome = true → s.currentQuoteId.isSome = true) :
    (step s op).state.currentApplicationId.isSome = true →
    (step s op).state.currentQuoteId.isSome = true := by
  cases op <;>
    simp only [step, AnalyticsManager.submitQuoteRequest,
      AnalyticsManager.startApplication, AnalyticsManager.completeApplication,
      AnalyticsManager.purchasePolicy, AnalyticsManager.trackPageView,
      AnalyticsManager.simulateBounce, AnalyticsManager.simulateNewVisitor,
      AnalyticsManager.simulateReturningVisitor, AnalyticsManager.trackTimeOnPage,
      AnalyticsManager.runABTest, AnalyticsManager.measurePageLoad,
      AnalyticsManager.simulateError, AnalyticsManager.trackDeviceInfo,
      AnalyticsManager.trackCustomSegment, AnalyticsManager.joinCohort,
      AnalyticsManager.trackRetention, AnalyticsManager.viewCohortData, failRes] <;>
    (try split_ifs) <;>
    simp_all [jsFalsy_false_isSome]

/-- C9: in every state reachable from a fresh session by any call
sequence, `currentApplicationId` is present only when `currentQuoteId`
is present; and a successful `purchasePolicy` clears both together. -/
theorem funnel_invariant_reachable (sid : String) (t0 : Nat) (store : Store) (ops : List Op)
    (st : AMState) (ca : String) (now : Nat) :
    ((runSeq (initState sid t0 store) ops).currentApplicationId.isSome = true →
      (runSeq (initState sid t0 store) ops).currentQuoteId.isSome = true) ∧
    ((AnalyticsManager.purchasePolicy st ca now).ok = true →
      (AnalyticsManager.purchasePolicy st ca now).state.currentQuoteId = none ∧
      (AnalyticsManager.purchasePolicy st ca now).state.currentApplicationId = none) := by
  constructor
  · have main : ∀ (l : List Op) (s : AMState),
        (s.currentApplicationId.isSome = true → s.currentQuoteId.isSome = true) →
        ((runSeq s l).currentApplicationId.isSome = true →
          (runSeq s l).currentQuoteId.isSome = true) := by
      intro l
      induction l with
      | nil => intro s h; simpa [runSeq] using h
      | cons op rest ih => intro s h; exact ih _ (step_app_implies_quote s op h)
    exact main ops _ (by simp [initState])
  · unfold AnalyticsManager.purchasePolicy
    split_ifs <;> simp [failRes]

/-- Witness for C9 on the demo journey. -/
theorem funnel_invariant_reachable_w :
    (runSeq (initState "sess" 0 emptyStore) demoJourney).currentQuoteId.isSome = true ∧
    (AnalyticsManager.purchasePolicy demoStarted "50000" 3).state.currentQuoteId = none :=
  ⟨(funnel_invariant_reachable "sess" 0 emptyStore demoJourney demoStarted "50000" 3).1
      (by decide),
   ((funnel_invariant_reachable "sess" 0 emptyStore demoJourney demoStarted "50000" 3).2
      (by decide)).1⟩

/-- A `completeApplication` call whose guards hold succeeds, bumps only
its counter and leaves both journey ids exactly as they were. -/
lemma completeApplication_step (st : AMState) (p : String) (now : Nat)
    (happ : jsFalsy st.currentApplicationId = false) (hp : p ≠ "") :
    (AnalyticsManager.completeApplication st p now).ok = true ∧
    (AnalyticsManager.completeApplication st p now).state.currentApplicationId
        = st.currentApplicationId ∧
    (AnalyticsManager.completeApplication st p now).state.currentQuoteId
        = st.currentQuoteId ∧
    (AnalyticsManager.completeApplication st p now).state.metrics.applicationsCompleted
        = st.metrics.applicationsCompleted + 1 := by
  unfold AnalyticsManager.completeApplication
  simp [happ, hp]

/-- Iterating `completeApplication` with valid inputs adds its count and
keeps the application id. -/
lemma completeApplication_iterate (p : String) (now : Nat) (hp : p ≠ "") :
    ∀ (n : Nat) (st : AMState), jsFalsy st.currentApplicationId = false →
      (runSeq st (List.replicate n (Op.completeApplication p now))).metrics.applicationsCompleted
          = st.metrics.applicationsCompleted + n ∧
      (runSeq st (List.replicate n (Op.completeApplication p now))).currentApplicationId
          = st.currentApplicationId := by
  intro n
  induction n with
  | zero => intro st _; simp [runSeq]
  | succ n ih =>
    intro st h
    obtain ⟨h1, h2, h3, h4⟩ := completeApplication_step st p now h hp
    have hguard :
        jsFalsy (AnalyticsManager.completeApplication st p now).state.currentApplicationId
          = false := by rw [h2]; exact h
    have hrec := ih (AnalyticsManager.completeApplication st p now).state hguard
    rw [List.replicate_succ]
    simp only [runSeq, step]
    refine ⟨?_, ?_⟩
    · rw [hrec.1, h4]; omega
    · rw [hrec.2, h2]

/-- C10: a valid `completeApplication` succeeds without clearing or
advancing any journey marker — the application and quote ids survive —
so `n` back-to-back calls all succeed, add `n` to
`applicationsCompleted`, and each emits `ApplicationCompleted` first,
tied to the unchanged `applicationId`. -/
theorem completeApplication_repeatable (st : AMState) (personalInfo : String)
    (now : Nat) (n : Nat)
    (happ : jsFalsy st.currentApplicationId = false) (hpi : personalInfo ≠ "") :
    (AnalyticsManager.completeApplication st personalInfo now).ok = true ∧
    (AnalyticsManager.completeApplication st personalInfo now).state.currentApplicationId
        = st.currentApplicationId ∧
    (AnalyticsManager.completeApplication st personalInfo now).state.currentQuoteId
        = st.currentQuoteId ∧
    (AnalyticsManager.completeApplication st personalInfo now).state.metrics.applicationsCompleted
        = st.metrics.applicationsCompleted + 1 ∧
    (AnalyticsManager.completeApplication st personalInfo now).events.head?
      = some { kind := "trackEvent", name := "ApplicationCompleted",
               properties := [("applicationId", optStr st.currentApplicationId),
                              ("quoteId", optStr st.currentQuoteId),
                              ("sessionId", PVal.str st.sessionId)],
               measurements := [("timeToCompleteMs",
                                 some ((now : ℚ) - (st.sessionStartTime : ℚ)))] } ∧
    (runSeq st
        (List.replicate n (Op.completeApplication personalInfo now))).metrics.applicationsCompleted
        = st.metrics.applicationsCompleted + n ∧
    (runSeq st (List.replicate n (Op.completeApplication personalInfo now))).currentApplicationId
        = st.currentApplicationId := by
  obtain ⟨h1, h2, h3, h4⟩ := completeApplication_step st personalInfo now happ hpi
  obtain ⟨h5, h6⟩ := completeApplication_iterate personalInfo now hpi n st happ
  refine ⟨h1, h2, h3, h4, ?_, h5, h6⟩
  unfold AnalyticsManager.completeApplication
  simp [happ, hpi]

/-- Witness for C10: three back-to-back completions on the demo session
all land, and the application id is untouched. -/
theorem completeApplication_repeatable_w :
    (AnalyticsManager.completeApplication demoStarted "Alice Smith" 4).ok = true ∧
    (runSeq demoStarted
        (List.replicate 3 (Op.completeApplication "Alice Smith" 4))).metrics.applicationsCompleted
      = demoStarted.metrics.applicationsCompleted + 3 ∧
    (runSeq demoStarted
        (List.replicate 3 (Op.completeApplication "Alice Smith" 4))).currentApplicationId
      = demoStarted.currentApplicationId := by
  have h := completeApplication_repeatable demoStarted "Alice Smith" 4 3 (by decide) (by decide)
  exact ⟨h.1, h.2.2.2.2.2.1, h.2.2.2.2.2.2⟩
